import Mathlib

/-!
Shallow embedding of the interaction and data-store engine of the
`ForceGraphCanvas` widget (src/src/ForceGraph.tsx), the class that owns the
node/edge collections, the pan/zoom view transform, pointer-gesture handling,
hit-testing and the selection state.

Conventions of the embedding:
* JavaScript numbers are modelled as `ℚ` (all the arithmetic the claims touch
  is field arithmetic: +, -, *, /, comparisons).
* JavaScript object identity (`===` on node and edge objects) is modelled by a
  `tag : Nat` field: two objects are the same reference iff their tags agree.
  `JSON.parse(JSON.stringify(...))` deep copies produce objects with fresh tags.
* `undefined`/`null` fields are `Option` `none`.
* The external d3 collaborators (force simulation, zoom behaviour, DOM) are out
  of scope; the store's `alpha`/`alphaTarget` values pushed to the simulation
  are tracked as plain state fields, and the deferred `setTimeout` unpin step of
  `addNode` is omitted (no claim depends on it).
* Callbacks (`onNodeClick`/`onLinkClick`/`onNodeDrag`) do not mutate the widget;
  each operation returns the list of callback invocations it performed.
-/

namespace ForceGraph

/-- A node object of `this.nodes`. `tag` models the JavaScript object
reference; `x, y` the simulation position; `fx, fy` the pinned position
(`none` = `null`/`undefined`). -/
structure NodeObj where
  tag : Nat
  id : String
  x : Option ℚ := none
  y : Option ℚ := none
  fx : Option ℚ := none
  fy : Option ℚ := none
  deriving Repr, DecidableEq

/-- An edge endpoint as stored in `link.source` / `link.target`: either a bare
id string or a reference to a node object. -/
inductive Endpoint where
  | str : String → Endpoint
  | obj : NodeObj → Endpoint
  deriving Repr, DecidableEq

/-- An edge object of `this.links`; `source`/`target` are `none` when the field
is absent (`undefined`). -/
structure EdgeObj where
  tag : Nat
  id : String
  index : Option Nat := none
  source : Option Endpoint := none
  target : Option Endpoint := none
  deriving Repr, DecidableEq

/-- JavaScript truthiness of an endpoint field (`!link.source`): `undefined`
and the empty string are falsy, a non-empty string or any object is truthy. -/
def endpointTruthy : Option Endpoint → Bool
  | none => false
  | some (Endpoint.str s) => !(s == "")
  | some (Endpoint.obj _) => true

/-- Reading `.x` off an endpoint cast to a node (`(link.source as NodeBase).x`):
a bare string has no `x` property (`undefined`). -/
def Endpoint.xCoord : Endpoint → Option ℚ
  | Endpoint.str _ => none
  | Endpoint.obj n => n.x

/-- Reading `.y` off an endpoint cast to a node. -/
def Endpoint.yCoord : Endpoint → Option ℚ
  | Endpoint.str _ => none
  | Endpoint.obj n => n.y

/-- Embeds `l.source === nodeObject` reference equality: it holds only when the endpoint
is an object with the same identity tag; a bare id string is never `===` to a
node object. -/
def endpointIsTag : Option Endpoint → Nat → Bool
  | some (Endpoint.obj m), t => m.tag == t
  | _, _ => false

/-- The recognized configuration options with their constructor defaults
(src/src/ForceGraph.tsx, constructor). Colour/stroke styling values are
draw-only strings with no behavioural effect and carry their defaults too. -/
structure GraphOptions where
  nodeRadius : ℚ := 8
  linkDistance : ℚ := 80
  chargeStrength : ℚ := -200
  nodeColor : String := "#69b3a2"
  highlightColor : String := "#f06292"
  linkColor : String := "#999999"
  linkStrokeWidth : ℚ := 3/2
  highlightLinkColor : String := "#f06292"
  highlightLinkStrokeWidth : ℚ := 5/2
  textColor : String := "#333333"
  textFontSize : ℚ := 10
  backgroundColor : String := "#ffffff"
  minZoom : ℚ := 1/5
  maxZoom : ℚ := 4
  tapThreshold : ℚ := 5
  tapTimeout : ℚ := 200
  selectionRadius : ℚ := 50
  deriving Repr, DecidableEq

/-- The d3 zoom transform `{k, x, y}`: screen = world * k + translation. -/
structure Transform where
  k : ℚ := 1
  x : ℚ := 0
  y : ℚ := 0
  deriving Repr, DecidableEq

/-- d3 `transform.invertX`. -/
def Transform.invertX (t : Transform) (px : ℚ) : ℚ := (px - t.x) / t.k

/-- d3 `transform.invertY`. -/
def Transform.invertY (t : Transform) (py : ℚ) : ℚ := (py - t.y) / t.k

/-- d3 `transform.applyX` (world x to screen x). -/
def Transform.applyX (t : Transform) (wx : ℚ) : ℚ := wx * t.k + t.x

/-- d3 `transform.applyY` (world y to screen y). -/
def Transform.applyY (t : Transform) (wy : ℚ) : ℚ := wy * t.k + t.y

/-!  Hit-testing (`_getNodeAtPos`, `_getLinkAtPos`).  -/

/-- One iteration of the `_getNodeAtPos` loop body: skip nodes with undefined
coordinates, otherwise accept the node when its squared distance beats both the
selection radius and the best squared distance so far. -/
def nodeScanStep (r wx wy : ℚ) (acc : Option (NodeObj × ℚ)) (n : NodeObj) :
    Option (NodeObj × ℚ) :=
  match n.x, n.y with
  | some nx, some ny =>
    let distSq := (wx - nx) * (wx - nx) + (wy - ny) * (wy - ny)
    match acc with
    | none => if distSq < r * r then some (n, distSq) else none
    | some (c, m) => if distSq < r * r ∧ distSq < m then some (n, distSq) else some (c, m)
  | _, _ => acc

/-- Embeds `_getNodeAtPos(worldX, worldY)`: scan the node list from the last index
down to 0 (modelled by folding over the reversed list), keeping the strictly
closest node whose squared world distance is below `selectionRadius²`.
Note the radius is used directly in world coordinates — it is not divided by
the current zoom scale. -/
def getNodeAtPos (nodes : List NodeObj) (selectionRadius wx wy : ℚ) : Option NodeObj :=
  (nodes.reverse.foldl (nodeScanStep selectionRadius wx wy) none).map Prod.fst

/-- The per-edge test of the `_getLinkAtPos` loop: `continue` (here: `false`)
on a falsy endpoint, an undefined endpoint coordinate, or a zero squared
length; otherwise project the query point onto the segment, clamp the
parameter into `[0,1]` and compare the squared distance with `tolerance²`. -/
def linkHitTest (tolerance wx wy : ℚ) (l : EdgeObj) : Bool :=
  if endpointTruthy l.source && endpointTruthy l.target then
    match l.source.bind Endpoint.xCoord, l.source.bind Endpoint.yCoord,
          l.target.bind Endpoint.xCoord, l.target.bind Endpoint.yCoord with
    | some x0, some y0, some x1, some y1 =>
      let dx := x1 - x0
      let dy := y1 - y0
      let lengthSq := dx * dx + dy * dy
      if lengthSq = 0 then false
      else
        let tRaw := ((wx - x0) * dx + (wy - y0) * dy) / lengthSq
        let tClamped := max 0 (min 1 tRaw)
        let closestX := x0 + tClamped * dx
        let closestY := y0 + tClamped * dy
        let distSq := (wx - closestX) * (wx - closestX) + (wy - closestY) * (wy - closestY)
        decide (distSq < tolerance * tolerance)
    | _, _, _, _ => false
  else false

/-- Embeds `_getLinkAtPos(worldX, worldY)`: tolerance is `5 / scale` (screen pixels
divided by the zoom scale), and the links are scanned from the last index down
to 0, returning the first hit. -/
def getLinkAtPos (links : List EdgeObj) (k wx wy : ℚ) : Option EdgeObj :=
  links.reverse.find? (linkHitTest (5 / k) wx wy)

/-- An edge that `_getLinkAtPos` can possibly return: truthy resolved
endpoints, defined coordinates, and a nonzero squared segment length. -/
def linkNondegenerate (l : EdgeObj) : Bool :=
  endpointTruthy l.source && endpointTruthy l.target &&
  (match l.source.bind Endpoint.xCoord, l.source.bind Endpoint.yCoord,
         l.target.bind Endpoint.xCoord, l.target.bind Endpoint.yCoord with
   | some x0, some y0, some x1, some y1 =>
     decide (¬((x1 - x0) * (x1 - x0) + (y1 - y0) * (y1 - y0) = 0))
   | _, _, _, _ => false)

/-!  Widget state and gesture handling.  -/

/-- One entry of `this.activePointers` (keyed by pointer id). -/
structure PointerInfo where
  startX : ℚ
  startY : ℚ
  startTime : ℚ
  deriving Repr, DecidableEq

/-- A callback invocation performed by a handler: the node/link click listeners
(with the id of the selected element or `none` for `null`), and the three
phases of the node-drag listener. -/
inductive CallbackEvent where
  | nodeClick : Option String → CallbackEvent
  | linkClick : Option String → CallbackEvent
  | dragStart : String → CallbackEvent
  | dragMove : String → CallbackEvent
  | dragEnd : String → CallbackEvent
  deriving Repr, DecidableEq

/-- The mutable state of a `ForceGraphCanvas` instance. `ctx` records whether
`canvas.getContext('2d')` produced a context (it may be `null`, in which case
drawing is skipped). `selectedNode` and `draggingNode` store the (tag, id) of
the referenced node object; `selectedLink` stores the edge object's tag.
`alpha`/`alphaTarget` are the values last pushed into the d3 simulation.
`nextTag` is the fresh-object-identity supply of the embedding. -/
structure GraphCanvas where
  ctx : Bool
  cssWidth : ℚ
  cssHeight : ℚ
  nodes : List NodeObj
  links : List EdgeObj
  options : GraphOptions
  currentTransform : Transform
  selectedNode : Option (Nat × String)
  selectedLink : Option Nat
  draggingNode : Option (Nat × String)
  wasDragging : Bool
  activePointers : List (Nat × PointerInfo)
  primaryPointerId : Option Nat
  alpha : ℚ
  alphaTarget : ℚ
  nextTag : Nat
  deriving Repr, DecidableEq

/-- Reads `this.selectedNode.id` when a node is selected. -/
def selectedNodeId (s : GraphCanvas) : Option String := s.selectedNode.map Prod.snd

/-- The options object of `_clearSelections` with its defaults. -/
structure ClearOptions where
  clearNode : Bool := true
  clearLink : Bool := true
  deriving Repr, DecidableEq

/-- Embeds `_clearSelections(options)`: clears each requested selection that is
non-null, reporting the change to the corresponding listener with `null`.
It never touches any node's `fx`/`fy`. -/
def clearSelections (s : GraphCanvas) (opts : ClearOptions) :
    GraphCanvas × List CallbackEvent :=
  let step1 : GraphCanvas × List CallbackEvent :=
    if opts.clearNode = true ∧ s.selectedNode.isSome then
      ({ s with selectedNode := none }, [CallbackEvent.nodeClick none])
    else (s, [])
  let s1 := step1.1
  let step2 : GraphCanvas × List CallbackEvent :=
    if opts.clearLink = true ∧ s1.selectedLink.isSome then
      ({ s1 with selectedLink := none }, [CallbackEvent.linkClick none])
    else (s1, [])
  (step2.1, step1.2 ++ step2.2)

/-- Embeds `_performSelection(worldX, worldY, event)` of src/src/ForceGraph.tsx:
node hit → clear link selection and toggle the node selection (comparing ids);
else link hit → clear node selection and toggle the link selection (comparing
object identity); else clear everything. Only the selection fields change; in
this variant no `fx`/`fy` is written. -/
def performSelection (s : GraphCanvas) (wx wy : ℚ) :
    GraphCanvas × List CallbackEvent :=
  match getNodeAtPos s.nodes s.options.selectionRadius wx wy with
  | some clickedNode =>
    let step1 := clearSelections s { clearNode := false, clearLink := true }
    let s1 := step1.1
    let step2 : GraphCanvas × List CallbackEvent :=
      if selectedNodeId s1 = some clickedNode.id then
        ({ s1 with selectedNode := none }, [CallbackEvent.nodeClick none])
      else
        ({ s1 with selectedNode := some (clickedNode.tag, clickedNode.id) },
         [CallbackEvent.nodeClick (some clickedNode.id)])
    (step2.1, step1.2 ++ step2.2)
  | none =>
    match getLinkAtPos s.links s.currentTransform.k wx wy with
    | some clickedLink =>
      let step1 := clearSelections s { clearNode := true, clearLink := false }
      let s1 := step1.1
      let step2 : GraphCanvas × List CallbackEvent :=
        if s1.selectedLink = some clickedLink.tag then
          ({ s1 with selectedLink := none }, [CallbackEvent.linkClick none])
        else
          ({ s1 with selectedLink := some clickedLink.tag },
           [CallbackEvent.linkClick (some clickedLink.id)])
      (step2.1, step1.2 ++ step2.2)
    | none => clearSelections s {}

/-- A pointer event as seen by the handlers (the canvas bounding rectangle is
placed at the origin, so `clientX`/`clientY` are already canvas-relative
screen coordinates; `timeStamp` is the value `Date.now()` returns while the
event is handled). -/
structure PointerEventRec where
  pointerId : Nat
  isPrimary : Bool
  clientX : ℚ
  clientY : ℚ
  timeStamp : ℚ
  deriving Repr, DecidableEq

/-- Result shape of `_getPointerPos(event)`. -/
structure PointerPos where
  screenX : ℚ
  screenY : ℚ
  worldX : ℚ
  worldY : ℚ
  deriving Repr, DecidableEq

/-- Embeds `_getPointerPos`: screen coordinates, and their inverse image under the
current zoom transform. -/
def getPointerPos (s : GraphCanvas) (e : PointerEventRec) : PointerPos :=
  { screenX := e.clientX
    screenY := e.clientY
    worldX := s.currentTransform.invertX e.clientX
    worldY := s.currentTransform.invertY e.clientY }

/-- Write `fx`/`fy` of the node object with the given identity tag. -/
def setNodeFxFy (nodes : List NodeObj) (tag : Nat) (fx fy : Option ℚ) : List NodeObj :=
  nodes.map fun n => if n.tag = tag then { n with fx := fx, fy := fy } else n

/-- Embeds `Map.set` on `this.activePointers`. -/
def setPointer (ps : List (Nat × PointerInfo)) (pid : Nat) (info : PointerInfo) :
    List (Nat × PointerInfo) :=
  if ps.any (fun p => p.1 == pid) then
    ps.map (fun p => if p.1 = pid then (pid, info) else p)
  else ps ++ [(pid, info)]

/-- Embeds `_handlePointerDown`: ignore non-primary pointers; record the pointer
session; if the press position hits a node, capture the pointer, pin the node
at the press world position, re-heat the simulation (`alphaTarget(0.3)`) and
report a drag start; finally reset `wasDragging`. -/
def handlePointerDown (s : GraphCanvas) (e : PointerEventRec) :
    GraphCanvas × List CallbackEvent :=
  if e.isPrimary = false then (s, [])
  else
    let pos := getPointerPos s e
    let node? := getNodeAtPos s.nodes s.options.selectionRadius pos.worldX pos.worldY
    let info : PointerInfo :=
      { startX := pos.screenX, startY := pos.screenY, startTime := e.timeStamp }
    let s1 := { s with activePointers := setPointer s.activePointers e.pointerId info }
    match node? with
    | some node =>
      ({ s1 with
          primaryPointerId := some e.pointerId
          draggingNode := some (node.tag, node.id)
          nodes := setNodeFxFy s1.nodes node.tag (some pos.worldX) (some pos.worldY)
          alphaTarget := 3/10
          wasDragging := false },
       [CallbackEvent.dragStart node.id])
    | none => ({ s1 with wasDragging := false }, [])

/-- Embeds `_handlePointerMove`: only while this pointer drives an active node drag;
move the pin to the current world position and mark the session as a drag. -/
def handlePointerMove (s : GraphCanvas) (e : PointerEventRec) :
    GraphCanvas × List CallbackEvent :=
  match s.draggingNode with
  | none => (s, [])
  | some (tag, nid) =>
    if s.primaryPointerId = some e.pointerId then
      let pos := getPointerPos s e
      ({ s with
          nodes := setNodeFxFy s.nodes tag (some pos.worldX) (some pos.worldY)
          wasDragging := true },
       [CallbackEvent.dragMove nid])
    else (s, [])

/-- Embeds `Math.sqrt dsq < thr` for a nonnegative `dsq`, expressed without square
roots: the root of a nonnegative quantity is below `thr` iff `thr` is positive
and `dsq < thr²`. -/
def sqrtLt (dsq thr : ℚ) : Prop := 0 < thr ∧ dsq < thr * thr

instance (dsq thr : ℚ) : Decidable (sqrtLt dsq thr) := by
  unfold sqrtLt; infer_instance

/-- The tap-classification block at the end of `_handlePointerUp`, applied to
the state `s1` left by the drag-end block (which never touches `wasDragging`,
the options, the transform or the pointer sessions) and to the pointer session
recorded at press time. If a session exists, no drag movement happened and the
pointer is primary, the gesture is a tap iff the elapsed time is below
`tapTimeout` and the screen displacement below `tapThreshold`; a tap performs
the selection at the release position and calls `preventDefault` (the returned
`Bool`) to suppress the subsequent click event. -/
def tapSelect (s1 : GraphCanvas) (e : PointerEventRec) (sessionInfo : Option PointerInfo) :
    GraphCanvas × List CallbackEvent × Bool :=
  match sessionInfo with
  | some info =>
    if s1.wasDragging = false ∧ e.isPrimary = true then
      let pos := getPointerPos s1 e
      let timeElapsed := e.timeStamp - info.startTime
      let distSq := (pos.screenX - info.startX) * (pos.screenX - info.startX) +
                    (pos.screenY - info.startY) * (pos.screenY - info.startY)
      if timeElapsed < s1.options.tapTimeout ∧ sqrtLt distSq s1.options.tapThreshold then
        let sel := performSelection s1 pos.worldX pos.worldY
        (sel.1, sel.2, true)
      else (s1, [], false)
    else (s1, [], false)
  | none => (s1, [], false)

/-- Embeds `_handlePointerUp`. First the drag-end block: while this pointer drives an
active drag, cool the simulation (`alphaTarget(0)`), unpin the dragged node
unless it is currently the selected node, report the drag end and clear the
drag state. Then the tap block (`tapSelect`). Finally the pointer session is
dropped and `wasDragging` reset. -/
def handlePointerUp (s : GraphCanvas) (e : PointerEventRec) :
    GraphCanvas × List CallbackEvent × Bool :=
  let pointerInfo := s.activePointers.lookup e.pointerId
  let dragStep : GraphCanvas × List CallbackEvent :=
    match s.draggingNode with
    | some (tag, nid) =>
      if s.primaryPointerId = some e.pointerId then
        let sCooled := { s with alphaTarget := 0 }
        let sUnpinned :=
          if selectedNodeId s = some nid then sCooled
          else { sCooled with nodes := setNodeFxFy sCooled.nodes tag none none }
        ({ sUnpinned with draggingNode := none, primaryPointerId := none },
         [CallbackEvent.dragEnd nid])
      else (s, [])
    | none => (s, [])
  let tapStep := tapSelect dragStep.1 e pointerInfo
  ({ tapStep.1 with
      activePointers := tapStep.1.activePointers.filter (fun p => !(p.1 == e.pointerId))
      wasDragging := false },
   dragStep.2 ++ tapStep.2.1, tapStep.2.2)

/-- Embeds `_handlePointerCancel`: it simply delegates to `_handlePointerUp`. -/
def handlePointerCancel (s : GraphCanvas) (e : PointerEventRec) :
    GraphCanvas × List CallbackEvent × Bool :=
  handlePointerUp s e

/-- Embeds `_handlePointerLeave`: it delegates to `_handlePointerUp` only while this
pointer drives an active node drag. -/
def handlePointerLeave (s : GraphCanvas) (e : PointerEventRec) :
    GraphCanvas × List CallbackEvent × Bool :=
  match s.draggingNode with
  | some _ =>
    if s.primaryPointerId = some e.pointerId then handlePointerUp s e
    else (s, [], false)
  | none => (s, [], false)

/-- Embeds `_handleClick`: the click that the browser dispatches after the release.
Skipped when the tap path already called `preventDefault`, consumed without a
selection when the session was a drag, otherwise performs the selection at the
click position. -/
def handleClick (s : GraphCanvas) (e : PointerEventRec) (defaultPrevented : Bool) :
    GraphCanvas × List CallbackEvent :=
  if defaultPrevented = true then (s, [])
  else if s.wasDragging = true then ({ s with wasDragging := false }, [])
  else
    let pos := getPointerPos s e
    performSelection s pos.worldX pos.worldY

/-- A complete press/release interaction of one pointer: `pointerdown`, then
`pointerup`, then the browser's `click` event, whose `defaultPrevented` flag
is set exactly when the pointerup handler called `preventDefault`. -/
def pressReleaseClick (s : GraphCanvas) (down up : PointerEventRec) :
    GraphCanvas × List CallbackEvent :=
  let step1 := handlePointerDown s down
  let step2 := handlePointerUp step1.1 up
  let step3 := handleClick step2.1 up step2.2.2
  (step3.1, step1.2 ++ step2.2.1 ++ step3.2)

/-- The selection-listener invocations among a list of callback events
(`onNodeClick` / `onLinkClick`, as opposed to the drag listener). -/
def selectionCallbacks (evs : List CallbackEvent) : List CallbackEvent :=
  evs.filter fun ev =>
    match ev with
    | CallbackEvent.nodeClick _ => true
    | CallbackEvent.linkClick _ => true
    | _ => false

/-!  Store mutations (`addNode`, `removeNode`, `updateData`) and the
constructor.  -/

/-- JavaScript truthiness of an optional string (`if (connectToNodeId)`):
`null`/`undefined` and the empty string are falsy. -/
def strTruthyVal : Option String → Option String
  | none => none
  | some c => if c = "" then none else some c

/-- Computes `"edge_" + n` — the id given to the implicit edge created by
`addNode(node, connectToNodeId)`, where `n` is `this.links.length` at creation
time. -/
def genEdgeId (n : Nat) : String := "edge_" ++ toString n

/-- Embeds `addNode(newNode, connectToNodeId)` of src/src/ForceGraph.tsx.
`jitterX`/`jitterY` stand for the two `Math.random() - 0.5` draws.
Rejections: an empty id (`console.error`) or an id already in the store
(`console.warn`) return without any mutation. Otherwise the node is placed
near the connect target (when given, resolvable and positioned) or near the
view centre, inserted pinned at its initial position, and — when the connect
target resolves — an implicit edge with id `edge_{links.length}` and bare
string endpoints is pushed. The deferred `setTimeout` unpin is omitted. -/
def addNode (s : GraphCanvas) (newNode : NodeObj) (connectToNodeId : Option String)
    (jitterX jitterY : ℚ) : GraphCanvas :=
  if newNode.id = "" then s
  else if (s.nodes.find? (fun n => n.id == newNode.id)).isSome then s
  else
    let connect := strTruthyVal connectToNodeId
    let viewCenterX := s.currentTransform.invertX (s.cssWidth / 2)
    let viewCenterY := s.currentTransform.invertY (s.cssHeight / 2)
    let initPos : ℚ × ℚ :=
      match connect with
      | some cid =>
        match s.nodes.find? (fun n => n.id == cid) with
        | some targetNode =>
          match targetNode.x, targetNode.y with
          | some tx0, some ty0 => (tx0 + jitterX * 20, ty0 + jitterY * 20)
          | _, _ => (viewCenterX, viewCenterY)
        | none => (viewCenterX, viewCenterY)
      | none =>
        (viewCenterX + jitterX * 50 / s.currentTransform.k,
         viewCenterY + jitterY * 50 / s.currentTransform.k)
    let completeNewNode : NodeObj :=
      { newNode with tag := s.nextTag, x := some initPos.1, y := some initPos.2,
                     fx := some initPos.1, fy := some initPos.2 }
    let nodes1 := s.nodes ++ [completeNewNode]
    let linkStep : List EdgeObj × Nat :=
      match connect with
      | some cid =>
        match nodes1.find? (fun n => n.id == cid) with
        | some targetNodeExists =>
          let linkCount := s.links.length
          (s.links ++ [{ tag := s.nextTag + 1
                         id := genEdgeId linkCount
                         index := some linkCount
                         source := some (Endpoint.str completeNewNode.id)
                         target := some (Endpoint.str targetNodeExists.id) }], 2)
        | none => (s.links, 1)
      | none => (s.links, 1)
    { s with nodes := nodes1, links := linkStep.1, nextTag := s.nextTag + linkStep.2,
             alpha := 3/10 }

/-- The `this.links.filter(...)` pass of `removeNode`, with the side effect in
the filter callback: an edge is dropped iff its `source` or `target` is `===`
the removed node object, and dropping the currently selected link clears the
link selection (reporting `null` to the link listener). -/
def removeNodeCascade (tag : Nat) (links : List EdgeObj) (selLink : Option Nat) :
    List EdgeObj × Option Nat × List CallbackEvent :=
  match links with
  | [] => ([], selLink, [])
  | l :: rest =>
    let isAffected := endpointIsTag l.source tag || endpointIsTag l.target tag
    let clearStep : Option Nat × List CallbackEvent :=
      if isAffected = true ∧ selLink = some l.tag then
        (none, [CallbackEvent.linkClick none])
      else (selLink, [])
    let restStep := removeNodeCascade tag rest clearStep.1
    ((if isAffected = true then restStep.1 else l :: restStep.1),
     restStep.2.1, clearStep.2 ++ restStep.2.2)

/-- Embeds `removeNode(nodeId)`: no-op when the id is absent; otherwise clear the node
selection when the removed node is selected, splice the node out, run the
cascade filter over the links, and push the shrunk collections to the
simulation (`alpha(0.1)`). -/
def removeNode (s : GraphCanvas) (nodeId : String) : GraphCanvas × List CallbackEvent :=
  match s.nodes.findIdx? (fun n => n.id == nodeId) with
  | none => (s, [])
  | some nodeIndex =>
    let selStep : GraphCanvas × List CallbackEvent :=
      if selectedNodeId s = some nodeId then
        clearSelections s { clearNode := true, clearLink := false }
      else (s, [])
    let s1 := selStep.1
    match s1.nodes[nodeIndex]? with
    | none => (s1, selStep.2)
    | some nodeToRemove =>
      let cascade := removeNodeCascade nodeToRemove.tag s1.links s1.selectedLink
      ({ s1 with nodes := s1.nodes.eraseIdx nodeIndex
                 links := cascade.1
                 selectedLink := cascade.2.1
                 alpha := 1/10 },
       selStep.2 ++ cascade.2.2)

/-- Deep-copied (`JSON.parse(JSON.stringify(...))`) node collections get fresh
object identities, assigned sequentially. -/
def retagNodes (start : Nat) : List NodeObj → List NodeObj
  | [] => []
  | n :: rest => { n with tag := start } :: retagNodes (start + 1) rest

/-- Deep-copied edge collections get fresh object identities, assigned
sequentially. -/
def retagEdges (start : Nat) : List EdgeObj → List EdgeObj
  | [] => []
  | l :: rest => { l with tag := start } :: retagEdges (start + 1) rest

/-- Embeds `new Map(this.nodes.map(node => [node.id, node])).get(key)`: with duplicate
ids the later entry overwrites the earlier one, so lookup returns the last
node carrying the id. -/
def nodeMapGet (ns : List NodeObj) (key : String) : Option NodeObj :=
  ns.reverse.find? (fun n => n.id == key)

/-- Resolving one endpoint of `updateData`:
`nodeMap.get(typeof old === 'string' ? old : old.id)`. An absent endpoint
(`undefined`) makes the property access `old.id` throw a `TypeError`. -/
def resolveEndpoint (ns : List NodeObj) :
    Option Endpoint → Except String (Option NodeObj)
  | none => Except.error "TypeError: cannot read properties of undefined"
  | some (Endpoint.str sid) => Except.ok (nodeMapGet ns sid)
  | some (Endpoint.obj n) => Except.ok (nodeMapGet ns n.id)

/-- The `map` + `filter` pass of `updateData` over the deep-copied links:
each link keeps its other fields, its endpoints are replaced by the resolved
node objects, and links with a non-truthy (unresolved) endpoint are dropped.
A thrown `TypeError` (undefined endpoint) propagates. -/
def resolveLinks (ns : List NodeObj) :
    List EdgeObj → Except String (List EdgeObj)
  | [] => Except.ok []
  | l :: rest =>
    match resolveEndpoint ns l.source with
    | Except.error msg => Except.error msg
    | Except.ok src =>
      match resolveEndpoint ns l.target with
      | Except.error msg => Except.error msg
      | Except.ok tgt =>
        match resolveLinks ns rest with
        | Except.error msg => Except.error msg
        | Except.ok restResolved =>
          if src.isSome ∧ tgt.isSome then
            Except.ok
              ({ l with
                  source := src.map Endpoint.obj
                  target := tgt.map Endpoint.obj } :: restResolved)
          else
            Except.ok restResolved

/-- Embeds `updateData(newNodes, newLinks)`: clear all selection, deep-copy both
collections, re-resolve every edge endpoint against the new node set (bare id
strings and node-shaped objects are both resolved through their id), silently
drop unresolved edges, push everything to the simulation and re-heat fully
(`alpha(1)`). -/
def updateData (s : GraphCanvas) (newNodes : List NodeObj) (newLinks : List EdgeObj) :
    Except String (GraphCanvas × List CallbackEvent) := do
  let clearStep := clearSelections s {}
  let nodes1 := retagNodes s.nextTag newNodes
  let links0 := retagEdges (s.nextTag + newNodes.length) newLinks
  let links1 ← resolveLinks nodes1 links0
  Except.ok
    ({ clearStep.1 with
        nodes := nodes1
        links := links1
        alpha := 1
        nextTag := s.nextTag + newNodes.length + newLinks.length },
     clearStep.2)

/-- The `ForceGraphCanvas` constructor together with `_init`/`_setupCanvas`:
`canvas.getContext('2d')` may return `null` and the result (`ctx2d = false`)
is stored without complaint; the initial collections are deep-copied; the only
fatal path is a canvas without a parent element, where `_setupCanvas` throws
`"Canvas parent element not found"` and the construction never completes.
`parentRect` carries the container's width and height when present. -/
def mkForceGraphCanvas (ctx2d : Bool) (parentRect : Option (ℚ × ℚ))
    (initNodes : List NodeObj) (initLinks : List EdgeObj) (opts : GraphOptions) :
    Except String GraphCanvas :=
  match parentRect with
  | none => Except.error "Canvas parent element not found"
  | some wh =>
    Except.ok
      { ctx := ctx2d
        cssWidth := wh.1
        cssHeight := wh.2
        nodes := retagNodes 0 initNodes
        links := retagEdges initNodes.length initLinks
        options := opts
        currentTransform := {}
        selectedNode := none
        selectedLink := none
        draggingNode := none
        wasDragging := false
        activePointers := []
        primaryPointerId := none
        alpha := 1
        alphaTarget := 0
        nextTag := initNodes.length + initLinks.length }

/-!  Derived notions used to state the claims.  -/

/-- The id an endpoint refers to, whether it is a bare id string or a
node-shaped object. -/
def endpointId : Endpoint → String
  | Endpoint.str s => s
  | Endpoint.obj n => n.id

/-- Whether an edge references a node id through either endpoint, in either
representation (bare id string or node object) — the semantic incidence notion
of the specification's cascade claim. -/
def edgeRefersToId (l : EdgeObj) (nid : String) : Bool :=
  (match l.source with
   | some ep => endpointId ep == nid
   | none => false) ||
  (match l.target with
   | some ep => endpointId ep == nid
   | none => false)

/-- The edges `removeNode` actually drops: those whose `source` or `target` is
`===` the removed node object. -/
def edgeIsIncidentTag (l : EdgeObj) (tag : Nat) : Bool :=
  endpointIsTag l.source tag || endpointIsTag l.target tag

/-- The tap classification test of `_handlePointerUp`, exactly as the handler
evaluates it on a release event: a session exists for the pointer, no drag
movement happened, the pointer is primary, the elapsed time is below
`tapTimeout` and the screen displacement is below `tapThreshold`. -/
def isTapRelease (s : GraphCanvas) (e : PointerEventRec) : Bool :=
  match s.activePointers.lookup e.pointerId with
  | some info =>
    !s.wasDragging && e.isPrimary &&
    decide (e.timeStamp - info.startTime < s.options.tapTimeout) &&
    decide (sqrtLt ((e.clientX - info.startX) * (e.clientX - info.startX) +
                    (e.clientY - info.startY) * (e.clientY - info.startY))
                   s.options.tapThreshold)
  | none => false

/-- Modelled from the spec: the edge-resolution step of `updateData` as §4.4
describes it — every endpoint reference (bare id or node-shaped object) is
re-resolved against the new node set through its id, and any edge whose source
or target does not resolve is silently dropped, the others keeping their
remaining fields with resolved node-object endpoints. Used as the specification
side of the `updateData` refinement claim. -/
def specResolveLinks (ns : List NodeObj) (ls : List EdgeObj) : List EdgeObj :=
  ls.filterMap fun l =>
    match l.source, l.target with
    | some es, some et =>
      match nodeMapGet ns (endpointId es), nodeMapGet ns (endpointId et) with
      | some a, some b =>
        some { l with source := some (Endpoint.obj a), target := some (Endpoint.obj b) }
      | _, _ => none
    | _, _ => none

/-- The edge-id shape produced by `addNode`-only histories from an empty edge
set: the ids are `edge_0, …, edge_{n-1}` in insertion order. -/
def edgeIdsCanonical (links : List EdgeObj) : Prop :=
  links.map EdgeObj.id = (List.range links.length).map genEdgeId

/-!  Concrete fixtures for the counterexamples and witnesses.  -/

/-- A canvas state with empty collections and default options. -/
def baseState : GraphCanvas :=
  { ctx := true
    cssWidth := 800
    cssHeight := 600
    nodes := []
    links := []
    options := {}
    currentTransform := {}
    selectedNode := none
    selectedLink := none
    draggingNode := none
    wasDragging := false
    activePointers := []
    primaryPointerId := none
    alpha := 1
    alphaTarget := 0
    nextTag := 0 }

/-- A node object at the world origin. -/
def nodeA : NodeObj := { tag := 0, id := "A", x := some 0, y := some 0 }

/-- C1 fixture: a zoom transform at scale `1/4` (inside the default
`[minZoom, maxZoom] = [1/5, 4]`). -/
def c1Transform : Transform := { k := 1/4 }

/-- C2 fixture: one node `A` and one edge whose two endpoints reference `A`
by bare id string (the form edges have before the external simulation resolves
them, and the form `addNode` itself pushes). -/
def c2State : GraphCanvas :=
  { baseState with
      nodes := [nodeA]
      links := [{ tag := 10, id := "e1",
                  source := some (Endpoint.str "A"),
                  target := some (Endpoint.str "A") }]
      nextTag := 11 }

/-- C3 fixture: a single node at the origin, nothing selected. -/
def c3State : GraphCanvas := { baseState with nodes := [nodeA], nextTag := 1 }

/-- C3: press on the node at time 0. -/
def c3Down : PointerEventRec :=
  { pointerId := 1, isPrimary := true, clientX := 0, clientY := 0, timeStamp := 0 }

/-- C3: stationary release 300 ms later — slower than `tapTimeout = 200`. -/
def c3Up : PointerEventRec :=
  { pointerId := 1, isPrimary := true, clientX := 0, clientY := 0, timeStamp := 300 }

/-- C4 fixture: node `A` is selected and pinned at the origin. -/
def c4State : GraphCanvas :=
  { baseState with
      nodes := [{ nodeA with fx := some 0, fy := some 0 }]
      selectedNode := some (0, "A")
      nextTag := 1 }

/-- C8 fixture: node `A` is pinned at `(3,4)` and being dragged by pointer 1;
nothing is selected. -/
def c8State : GraphCanvas :=
  { baseState with
      nodes := [{ nodeA with fx := some 3, fy := some 4 }]
      draggingNode := some (0, "A")
      primaryPointerId := some 1
      activePointers := [(1, { startX := 0, startY := 0, startTime := 0 })]
      alphaTarget := 3/10
      nextTag := 1 }

/-- C5/C7 fixture: nodes `A` and `B` for the full-replace call. -/
def abNodes : List NodeObj :=
  [{ tag := 0, id := "A", x := some 0, y := some 0 },
   { tag := 0, id := "B", x := some 100, y := some 0 }]

/-- C7 fixture: a single edge already named `edge_1`, as `updateData` admits
it (distinct ids among the input edges). -/
def c7Edge : EdgeObj :=
  { tag := 0, id := "edge_1", source := some (Endpoint.str "A"),
    target := some (Endpoint.str "B") }

/-- C5 fixture: the spec's end-to-end example input `[{id:"X"}]`. -/
def xNode : NodeObj := { tag := 0, id := "X" }

/-- C5 fixture: the spec's end-to-end example edge `{id:"e1",source:"X",target:"Y"}`. -/
def e1Edge : EdgeObj :=
  { tag := 0, id := "e1", source := some (Endpoint.str "X"),
    target := some (Endpoint.str "Y") }

/-- C10 fixture: a hit-testable edge from `(0,0)` to `(10,0)`. -/
def c10Good : EdgeObj :=
  { tag := 0, id := "g",
    source := some (Endpoint.obj { tag := 1, id := "A", x := some 0, y := some 0 }),
    target := some (Endpoint.obj { tag := 2, id := "B", x := some 10, y := some 0 }) }

/-- C10 fixture: a zero-length edge (both endpoints at `(5,5)`). -/
def c10Deg : EdgeObj :=
  { tag := 3, id := "d",
    source := some (Endpoint.obj { tag := 4, id := "C", x := some 5, y := some 5 }),
    target := some (Endpoint.obj { tag := 5, id := "D", x := some 5, y := some 5 }) }

/-!  Theorems.  -/

unseal Rat.add Rat.mul Rat.sub Rat.inv in
/-- C1, counterexample. At zoom scale `k = 1/4` (within the configured
`[minZoom, maxZoom]`), a query point whose screen-space distance to the
projection of node `A` is `40` — strictly inside the configured tolerance of
`selectionRadius = 50` screen pixels — does **not** hit the node: the claim
that `_getNodeAtPos` returns the node whenever the screen distance is below
the tolerance, independently of the zoom scale, is false. The world distance
is `40 / (1/4) = 160 ≥ 50`, because the radius is applied in world space. -/
theorem c1_counterexample :
    ({} : GraphOptions).minZoom ≤ c1Transform.k ∧
    c1Transform.k ≤ ({} : GraphOptions).maxZoom ∧
    (40 - c1Transform.applyX 0) * (40 - c1Transform.applyX 0) +
      (0 - c1Transform.applyY 0) * (0 - c1Transform.applyY 0) <
      ({} : GraphOptions).selectionRadius * ({} : GraphOptions).selectionRadius ∧
    getNodeAtPos [nodeA] ({} : GraphOptions).selectionRadius
      (c1Transform.invertX 40) (c1Transform.invertY 0) = none := by
  decide

unseal Rat.add Rat.mul Rat.sub Rat.inv in
/-- C2, counterexample. In a store whose single edge references the removed
node `A` through bare id strings on both endpoints, `removeNode "A"` removes
the node but keeps the edge: one edge is semantically incident to `A`, yet the
edge count stays `1` instead of dropping to `1 - 1 = 0`, because the cascade
compares endpoints to the removed node object by reference (`===`), which a
bare id string never satisfies. -/
theorem c2_counterexample :
    c2State.links.length = 1 ∧
    c2State.links.countP (fun l => edgeRefersToId l "A") = 1 ∧
    (removeNode c2State "A").1.nodes = [] ∧
    (removeNode c2State "A").1.links.length = 1 := by
  decide

unseal Rat.add Rat.mul Rat.sub Rat.inv in
/-- C3, counterexample. A stationary press/release on a node whose elapsed
time is `300 ms ≥ tapTimeout = 200 ms` is not a tap, so the pointerup handler
performs no selection — but it also does not call `preventDefault`, and the
browser's subsequent `click` event reaches `_handleClick` (with
`wasDragging = false`), which performs the selection: the selected node
changes from `none` to node `A` and an `onNodeClick` callback fires. The
claim that a non-tap release never triggers a selection change via any
pathway, including the subsequent click event, is false. -/
theorem c3_counterexample :
    c3State.options.tapTimeout ≤ c3Up.timeStamp - c3Down.timeStamp ∧
    c3State.selectedNode = none ∧
    (pressReleaseClick c3State c3Down c3Up).1.selectedNode = some (0, "A") ∧
    selectionCallbacks (pressReleaseClick c3State c3Down c3Up).2 =
      [CallbackEvent.nodeClick (some "A")] := by
  decide

unseal Rat.add Rat.mul Rat.sub Rat.inv in
/-- C4, counterexample. With node `A` selected and pinned at the origin,
`_performSelection` hitting `A` again deselects it but does **not** unpin it:
`fx` and `fy` remain `0` rather than becoming `null`. (The unpin-on-deselect
behaviour exists only in the legacy mouse/touch variant of the widget, not in
src/src/ForceGraph.tsx, whose `_performSelection` never writes `fx`/`fy`.) -/
theorem c4_counterexample :
    (performSelection c4State 0 0).1.selectedNode = none ∧
    (performSelection c4State 0 0).1.nodes.map NodeObj.fx = [some 0] ∧
    (performSelection c4State 0 0).1.nodes.map NodeObj.fy = [some 0] := by
  decide

unseal Rat.add Rat.mul Rat.sub Rat.inv in
/-- C7, counterexample. Starting from an empty store (distinct edge ids),
`updateData` admits one edge legitimately named `"edge_1"`; a subsequent
`addNode({id:"C"}, "A")` generates the implicit edge id
`edge_{links.length} = "edge_1"` — a collision. The resulting store holds two
edges with the same id, refuting the uniqueness invariant. -/
theorem c7_counterexample :
    (updateData baseState abNodes [c7Edge]).toOption.map
        (fun r => (addNode r.1 { tag := 99, id := "C" } (some "A") 0 0).links.map EdgeObj.id) =
      some ["edge_1", "edge_1"] ∧
    ¬ (["edge_1", "edge_1"] : List String).Nodup := by
  decide

unseal Rat.add Rat.mul Rat.sub Rat.inv in
/-- C9, counterexample. Construction with an unavailable 2D context
(`getContext` returned `null`) but a present parent container completes
normally and stores the null context — no error is raised, refuting the claim
that an unobtainable drawable surface fails construction fatally. -/
theorem c9_counterexample :
    (mkForceGraphCanvas false (some (800, 600)) [] [] {}).toOption.map GraphCanvas.ctx =
      some false := by
  decide

/-- C9, amended: construction fails (the `_setupCanvas` throw aborts the
constructor) exactly when the canvas has no parent container; an unavailable
2D drawing context is tolerated (stored as `null`, drawing later skipped).  -/
theorem c9_init_fails_iff_no_parent (ctx2d : Bool) (parentRect : Option (ℚ × ℚ))
    (initNodes : List NodeObj) (initLinks : List EdgeObj) (opts : GraphOptions) :
    (mkForceGraphCanvas ctx2d parentRect initNodes initLinks opts).toOption.isSome =
      parentRect.isSome := by
  cases parentRect <;> rfl

/-!  Frame lemmas: the selection operations touch nothing but the selection
fields. -/

/-- Closed form of `_clearSelections`: each requested non-null selection is
nulled with a `null` report to its listener; nothing else changes. -/
theorem clearSelections_eq (s : GraphCanvas) (opts : ClearOptions) :
    clearSelections s opts =
      ({ s with
          selectedNode :=
            if opts.clearNode = true ∧ s.selectedNode.isSome = true then none
            else s.selectedNode
          selectedLink :=
            if opts.clearLink = true ∧ s.selectedLink.isSome = true then none
            else s.selectedLink },
       (if opts.clearNode = true ∧ s.selectedNode.isSome = true then
          [CallbackEvent.nodeClick none] else []) ++
       (if opts.clearLink = true ∧ s.selectedLink.isSome = true then
          [CallbackEvent.linkClick none] else [])) := by
  by_cases h1 : opts.clearNode = true ∧ s.selectedNode.isSome = true <;>
  by_cases h2 : opts.clearLink = true ∧ s.selectedLink.isSome = true <;>
    simp [clearSelections, h1, h2]

/-- The handler `_clearSelections` changes only `selectedNode`/`selectedLink`. -/
theorem clearSelections_frame (s : GraphCanvas) (opts : ClearOptions) :
    (clearSelections s opts).1.nodes = s.nodes ∧
    (clearSelections s opts).1.links = s.links ∧
    (clearSelections s opts).1.alphaTarget = s.alphaTarget ∧
    (clearSelections s opts).1.draggingNode = s.draggingNode ∧
    (clearSelections s opts).1.primaryPointerId = s.primaryPointerId ∧
    (clearSelections s opts).1.activePointers = s.activePointers ∧
    (clearSelections s opts).1.wasDragging = s.wasDragging ∧
    (clearSelections s opts).1.options = s.options ∧
    (clearSelections s opts).1.currentTransform = s.currentTransform := by
  rw [clearSelections_eq]
  exact ⟨rfl, rfl, rfl, rfl, rfl, rfl, rfl, rfl, rfl⟩

/-- Running `_clearSelections` with `clearNode := false` keeps the node selection. -/
theorem clearSelections_keepNode (s : GraphCanvas) (opts : ClearOptions)
    (h : opts.clearNode = false) :
    (clearSelections s opts).1.selectedNode = s.selectedNode := by
  rw [clearSelections_eq]
  simp [h]

/-- Running `_clearSelections` with `clearLink := true` always leaves the link
selection empty. -/
theorem clearSelections_linkCleared (s : GraphCanvas) (opts : ClearOptions)
    (h : opts.clearLink = true) :
    (clearSelections s opts).1.selectedLink = none := by
  rw [clearSelections_eq]
  by_cases h2 : s.selectedLink.isSome = true
  · simp [h, h2]
  · simp [h, Option.not_isSome_iff_eq_none.mp h2]

/-- Running `_clearSelections` with `clearNode := true` always leaves the node
selection empty. -/
theorem clearSelections_nodeCleared (s : GraphCanvas) (opts : ClearOptions)
    (h : opts.clearNode = true) :
    (clearSelections s opts).1.selectedNode = none := by
  rw [clearSelections_eq]
  by_cases h1 : s.selectedNode.isSome = true
  · simp [h, h1]
  · simp [h, Option.not_isSome_iff_eq_none.mp h1]

/-- The handler `_performSelection` changes only `selectedNode`/`selectedLink`: the node
collection (in particular every `fx`/`fy`), the simulation energy target, the
drag state and the pointer sessions stay as they were. -/
theorem performSelection_frame (s : GraphCanvas) (wx wy : ℚ) :
    (performSelection s wx wy).1.nodes = s.nodes ∧
    (performSelection s wx wy).1.alphaTarget = s.alphaTarget ∧
    (performSelection s wx wy).1.draggingNode = s.draggingNode ∧
    (performSelection s wx wy).1.primaryPointerId = s.primaryPointerId ∧
    (performSelection s wx wy).1.activePointers = s.activePointers ∧
    (performSelection s wx wy).1.wasDragging = s.wasDragging ∧
    (performSelection s wx wy).1.options = s.options ∧
    (performSelection s wx wy).1.links = s.links := by
  unfold performSelection
  simp only [clearSelections_eq]
  split
  · split_ifs <;> exact ⟨rfl, rfl, rfl, rfl, rfl, rfl, rfl, rfl⟩
  · split
    · split_ifs <;> exact ⟨rfl, rfl, rfl, rfl, rfl, rfl, rfl, rfl⟩
    · exact ⟨rfl, rfl, rfl, rfl, rfl, rfl, rfl, rfl⟩

/-!  C10: `_getLinkAtPos` on degenerate edges.  -/

/-- Any edge accepted by the per-edge hit test is nondegenerate. -/
theorem linkHitTest_nondegenerate (tolerance wx wy : ℚ) (l : EdgeObj)
    (h : linkHitTest tolerance wx wy l = true) : linkNondegenerate l = true := by
  unfold linkHitTest at h
  unfold linkNondegenerate
  split at h
  case isTrue htr =>
    split at h
    case h_1 x0 y0 x1 y1 hx0 hy0 hx1 hy1 =>
      simp only [] at h
      split_ifs at h with hlen
      simp [htr, hlen]
    case h_2 => cases h
  case isFalse htr => cases h

/-- A degenerate edge never passes the per-edge hit test. -/
theorem linkHitTest_of_degenerate (tolerance wx wy : ℚ) (l : EdgeObj)
    (h : linkNondegenerate l = false) : linkHitTest tolerance wx wy l = false := by
  cases hh : linkHitTest tolerance wx wy l with
  | false => rfl
  | true => rw [linkHitTest_nondegenerate tolerance wx wy l hh] at h; cases h

/-- List `find?` skips an element on which the predicate is false. -/
theorem find?_skip_middle {α : Type} (p : α → Bool) (x : α) (hp : p x = false)
    (a b : List α) : (a ++ x :: b).find? p = (a ++ b).find? p := by
  induction a with
  | nil =>
    simp only [List.nil_append]
    have hnx : ¬ p x := by simp [hp]
    rw [List.find?_cons_of_neg _ hnx]
  | cons y rest ih =>
    simp only [List.cons_append]
    cases hy : p y with
    | true => rw [List.find?_cons_of_pos _ hy, List.find?_cons_of_pos _ hy]
    | false =>
      have hny : ¬ p y := by simp [hy]
      rw [List.find?_cons_of_neg _ hny, List.find?_cons_of_neg _ hny, ih]

/-- C10: `_getLinkAtPos` is total on degenerate input. Whatever edge it
returns is nondegenerate (truthy endpoints, defined coordinates, nonzero
squared length — so the division by `lengthSq` is never a division by zero),
and any degenerate edge anywhere in the list — zero-length segment,
unresolved endpoint, or undefined endpoint coordinates — is skipped: deleting
it from the list does not change the result, so scanning continues over the
remaining edges. -/
theorem c10_getLinkAtPos_skips_degenerate :
    (∀ (links : List EdgeObj) (k wx wy : ℚ) (l : EdgeObj),
        getLinkAtPos links k wx wy = some l → linkNondegenerate l = true) ∧
    (∀ (k wx wy : ℚ) (l : EdgeObj) (l1 l2 : List EdgeObj),
        linkNondegenerate l = false →
        getLinkAtPos (l1 ++ l :: l2) k wx wy = getLinkAtPos (l1 ++ l2) k wx wy) := by
  constructor
  · intro links k wx wy l h
    exact linkHitTest_nondegenerate _ _ _ _ (List.find?_some h)
  · intro k wx wy l l1 l2 h
    unfold getLinkAtPos
    rw [List.reverse_append, List.reverse_cons, List.reverse_append]
    rw [List.append_assoc, List.singleton_append]
    exact find?_skip_middle _ l (linkHitTest_of_degenerate _ _ _ _ h) _ _

unseal Rat.add Rat.mul Rat.sub Rat.inv in
/-- C10, witness: the edge from `(0,0)` to `(10,0)` is hit at the origin and
is nondegenerate; prepending the zero-length edge `c10Deg` to the list leaves
the hit-test result unchanged (the degenerate edge is skipped, scanning
continues). -/
theorem c10_witness :
    linkNondegenerate c10Good = true ∧
    getLinkAtPos [c10Deg, c10Good] 1 0 0 = getLinkAtPos [c10Good] 1 0 0 := by
  constructor
  · exact c10_getLinkAtPos_skips_degenerate.1 [c10Good] 1 0 0 c10Good (by decide)
  · exact c10_getLinkAtPos_skips_degenerate.2 1 0 0 c10Deg [] [c10Good] (by decide)

/-!  C6: duplicate-id inserts are rejected without mutation.  -/

/-- C6: `addNode` with an id already in the store is a rejected mutation — the
whole state (node and edge collections included) is returned unchanged, with
no exception (the embedding is a total function); consequently node-id
uniqueness (`Nodup` over the stored ids) is preserved by every `addNode`
call. -/
theorem c6_addNode_rejects_duplicate (s : GraphCanvas) (newNode : NodeObj)
    (connectTo : Option String) (jx jy : ℚ) :
    ((∃ n ∈ s.nodes, n.id = newNode.id) → addNode s newNode connectTo jx jy = s) ∧
    ((s.nodes.map NodeObj.id).Nodup →
      ((addNode s newNode connectTo jx jy).nodes.map NodeObj.id).Nodup) := by
  constructor
  · rintro ⟨n, hn, hid⟩
    unfold addNode
    by_cases h0 : newNode.id = ""
    · simp [h0]
    · have hdup : (s.nodes.find? (fun m => m.id == newNode.id)).isSome := by
        rw [List.find?_isSome]
        exact ⟨n, hn, by simp [hid]⟩
      simp [h0, hdup]
  · intro hnd
    unfold addNode
    by_cases h0 : newNode.id = ""
    · simpa [h0] using hnd
    · by_cases hdup : (s.nodes.find? (fun m => m.id == newNode.id)).isSome = true
      · simpa [h0, hdup] using hnd
      · have hnone : ∀ n ∈ s.nodes, ¬ n.id = newNode.id := by simpa using hdup
        have key : ∀ xv yv fxv fyv : Option ℚ,
            (List.map NodeObj.id (s.nodes ++
              [{ tag := s.nextTag, id := newNode.id,
                 x := xv, y := yv, fx := fxv, fy := fyv }])).Nodup := by
          intro xv yv fxv fyv
          simp only [List.map_append, List.map_cons, List.map_nil]
          rw [List.nodup_append]
          refine ⟨hnd, List.nodup_singleton _, ?_⟩
          intro a ha hb
          simp only [List.mem_singleton] at hb
          obtain ⟨n, hn, rfl⟩ := List.mem_map.mp ha
          exact hnone n hn (by simpa using hb)
        rw [if_neg h0, if_neg hdup]
        exact key _ _ _ _

unseal Rat.add Rat.mul Rat.sub Rat.inv in
/-- C6, witness: inserting a second node with id `"A"` into the store that
already holds node `A` leaves the state unchanged, and id-uniqueness is
preserved by an insert with the fresh id `"B"`. -/
theorem c6_witness :
    (addNode c3State { tag := 7, id := "A" } none 0 0 = c3State) ∧
    (((addNode c3State { tag := 7, id := "B" } none 0 0).nodes.map NodeObj.id).Nodup) := by
  constructor
  · exact (c6_addNode_rejects_duplicate c3State { tag := 7, id := "A" } none 0 0).1
      ⟨nodeA, by decide, rfl⟩
  · exact (c6_addNode_rejects_duplicate c3State { tag := 7, id := "B" } none 0 0).2
      (by decide)

/-!  C7: the shape of generated edge ids.  -/

/-- C7, amended: in `addNode`-only histories starting from an empty edge set
the generated ids stay canonical — the stored edge ids are exactly
`edge_0, …, edge_{n-1}` in insertion order (each new implicit edge takes the
id `edge_{current edge count}`), so ids generated this way never collide with
each other. (With pre-existing edge ids from initial data or `updateData`,
the generated id can collide — see the counterexample.) -/
theorem c7_addNode_keeps_canonical_edge_ids (s : GraphCanvas) (newNode : NodeObj)
    (connectTo : Option String) (jx jy : ℚ)
    (h : edgeIdsCanonical s.links) :
    edgeIdsCanonical (addNode s newNode connectTo jx jy).links := by
  unfold addNode
  by_cases h0 : newNode.id = ""
  · simpa [h0] using h
  · by_cases hdup : (s.nodes.find? (fun m => m.id == newNode.id)).isSome = true
    · simpa [h0, hdup] using h
    · simp only [h0, hdup, if_false, Bool.false_eq_true]
      split
      · split
        · unfold edgeIdsCanonical at h ⊢
          simp only [List.map_append, List.map_cons, List.map_nil,
            List.length_append, List.length_cons, List.length_nil]
          rw [h]
          rw [show s.links.length + (0 + 1) = s.links.length + 1 by ring]
          rw [List.range_succ, List.map_append]
          rfl
        · exact h
      · exact h

/-- C7, witness: adding node `"B"` connected to `"A"` in a store with no edges
yields the canonical id list `["edge_0"]`. -/
theorem c7_witness :
    edgeIdsCanonical (addNode c3State { tag := 7, id := "B" } (some "A") 0 0).links := by
  exact c7_addNode_keeps_canonical_edge_ids c3State { tag := 7, id := "B" } (some "A") 0 0
    (by constructor)

/-!  C1: node hit tolerance lives in world space, not screen space.  -/

/-- C1, amended: the node hit test applies `selectionRadius` in world
coordinates. For a node at world position `(nx, ny)` under any zoom scale `k`
in the configured `[minZoom, maxZoom]` (with `minZoom > 0`), a query point
with screen coordinates `(qx, qy)` hits the node **iff** its screen-space
distance to the node's screen projection is below `k · selectionRadius`: the
effective screen tolerance grows and shrinks with the zoom scale instead of
being a fixed number of screen pixels (only the edge hit tolerance `5 / k` is
scale-invariant). -/
theorem c1_node_hit_tolerance_world_space (t : Transform) (opts : GraphOptions)
    (tag : Nat) (nid : String) (nx ny qx qy : ℚ)
    (hmin : 0 < opts.minZoom) (h1 : opts.minZoom ≤ t.k) (h2 : t.k ≤ opts.maxZoom) :
    (getNodeAtPos [{ tag := tag, id := nid, x := some nx, y := some ny }]
        opts.selectionRadius (t.invertX qx) (t.invertY qy)).isSome ↔
      (qx - t.applyX nx) * (qx - t.applyX nx) + (qy - t.applyY ny) * (qy - t.applyY ny) <
        (t.k * opts.selectionRadius) * (t.k * opts.selectionRadius) := by
  have hk : 0 < t.k := lt_of_lt_of_le hmin h1
  have hk0 : t.k ≠ 0 := ne_of_gt hk
  have hk2 : (0 : ℚ) < t.k * t.k := mul_pos hk hk
  unfold getNodeAtPos nodeScanStep Transform.invertX Transform.invertY
    Transform.applyX Transform.applyY
  simp only [List.reverse_singleton, List.foldl_cons, List.foldl_nil]
  have e1 : (qx - t.x) / t.k - nx = (qx - (nx * t.k + t.x)) / t.k := by
    field_simp
    ring
  have e2 : (qy - t.y) / t.k - ny = (qy - (ny * t.k + t.y)) / t.k := by
    field_simp
    ring
  rw [e1, e2]
  rw [div_mul_div_comm, div_mul_div_comm, div_add_div_same]
  have hiff :
      ((qx - (nx * t.k + t.x)) * (qx - (nx * t.k + t.x)) +
        (qy - (ny * t.k + t.y)) * (qy - (ny * t.k + t.y))) / (t.k * t.k) <
          opts.selectionRadius * opts.selectionRadius ↔
      (qx - (nx * t.k + t.x)) * (qx - (nx * t.k + t.x)) +
        (qy - (ny * t.k + t.y)) * (qy - (ny * t.k + t.y)) <
          t.k * opts.selectionRadius * (t.k * opts.selectionRadius) := by
    rw [div_lt_iff₀ hk2]
    rw [show opts.selectionRadius * opts.selectionRadius * (t.k * t.k) =
        t.k * opts.selectionRadius * (t.k * opts.selectionRadius) from by ring]
  split_ifs with hc
  · simpa using hiff.mp hc
  · simpa using fun hcon => hc (hiff.mpr hcon)

unseal Rat.add Rat.mul Rat.sub Rat.inv in
/-- C1, witness: at zoom scale `1/4`, the query at the screen origin hits the
node at the world origin, and the hit condition is exactly the screen-space
bound `k · selectionRadius`. -/
theorem c1_witness :
    (getNodeAtPos [{ tag := 0, id := "A", x := some 0, y := some 0 }]
        ({} : GraphOptions).selectionRadius
        (c1Transform.invertX 0) (c1Transform.invertY 0)).isSome ↔
      (0 - c1Transform.applyX 0) * (0 - c1Transform.applyX 0) +
        (0 - c1Transform.applyY 0) * (0 - c1Transform.applyY 0) <
        (c1Transform.k * ({} : GraphOptions).selectionRadius) *
          (c1Transform.k * ({} : GraphOptions).selectionRadius) := by
  exact c1_node_hit_tolerance_world_space c1Transform {} 0 "A" 0 0 0 0
    (by decide) (by decide) (by decide)

/-!  C2: the cascade of `removeNode` uses reference equality.  -/

/-- The cascade filter drops exactly the edges whose `source` or `target` is
`===` the removed node object, regardless of the selection state threaded
through it. -/
theorem removeNodeCascade_links (tag : Nat) (links : List EdgeObj) (sel : Option Nat) :
    (removeNodeCascade tag links sel).1 =
      links.filter (fun l => !(edgeIsIncidentTag l tag)) := by
  induction links generalizing sel with
  | nil => rfl
  | cons l rest ih =>
    unfold removeNodeCascade
    have hb : (endpointIsTag l.source tag || endpointIsTag l.target tag) =
        edgeIsIncidentTag l tag := rfl
    rw [hb]
    cases hba : edgeIsIncidentTag l tag <;>
      simp [hba, ih, List.filter_cons]

/-- Counting helper: the elements kept by a filter plus the elements counted
by the complementary predicate make up the whole list. -/
theorem length_filter_not_add_countP {α : Type} (p : α → Bool) (l : List α) :
    (l.filter (fun a => !(p a))).length + l.countP p = l.length := by
  induction l with
  | nil => rfl
  | cons a rest ih =>
    cases ha : p a <;> simp [List.filter_cons, List.countP_cons, ha] <;> omega

/-- C2, amended: when the removed id is present, `removeNode` keeps exactly
the edges whose `source` or `target` is **not** the removed node object
itself (`===`, modelled by the identity tag), so the edge count drops by the
number of object-reference-incident edges. Edges that reference the removed
node only through a bare id string are not removed (resolving id strings into
object references is left to the external simulation bridge). -/
theorem c2_removeNode_cascade_reference_equality (s : GraphCanvas) (nodeId : String)
    (i : Nat) (nodeToRemove : NodeObj)
    (hidx : s.nodes.findIdx? (fun n => n.id == nodeId) = some i)
    (hget : s.nodes[i]? = some nodeToRemove) :
    (removeNode s nodeId).1.links =
      s.links.filter (fun l => !(edgeIsIncidentTag l nodeToRemove.tag)) ∧
    (removeNode s nodeId).1.links.length +
      s.links.countP (fun l => edgeIsIncidentTag l nodeToRemove.tag) = s.links.length := by
  have key : (removeNode s nodeId).1.links =
      s.links.filter (fun l => !(edgeIsIncidentTag l nodeToRemove.tag)) := by
    unfold removeNode
    simp only [hidx]
    by_cases hsel : selectedNodeId s = some nodeId
    · rw [if_pos hsel]
      have hn := (clearSelections_frame s { clearNode := true, clearLink := false }).1
      have hl := (clearSelections_frame s { clearNode := true, clearLink := false }).2.1
      rw [hn, hget]
      simp only [hl, removeNodeCascade_links]
    · rw [if_neg hsel]
      rw [hget]
      simp only [removeNodeCascade_links]
  exact ⟨key, by rw [key]; exact length_filter_not_add_countP _ _⟩

unseal Rat.add Rat.mul Rat.sub Rat.inv in
/-- C2, witness: removing node `A` from the fixture store keeps the bare-id
edge (no edge is object-reference-incident to `A`), so the count formula
holds with zero removed edges. -/
theorem c2_witness :
    (removeNode c2State "A").1.links =
      c2State.links.filter (fun l => !(edgeIsIncidentTag l nodeA.tag)) ∧
    (removeNode c2State "A").1.links.length +
      c2State.links.countP (fun l => edgeIsIncidentTag l nodeA.tag) =
      c2State.links.length := by
  exact c2_removeNode_cascade_reference_equality c2State "A" 0 nodeA
    (by decide) (by decide)

/-!  C4: `_performSelection` toggles the selection but never pins/unpins.  -/

/-- C4, amended: when the hit test resolves a node, `_performSelection` clears
the link selection and toggles the node selection — deselecting when the hit
node is already selected (compared by id), selecting it otherwise — but the
node collection is left untouched: no `fx`/`fy` is written, so deselection
does not unpin and selection does not pin. (The pin/unpin-in-selection
behaviour exists only in the legacy mouse/touch variant of the widget.) -/
theorem c4_performSelection_toggles_never_pins (s : GraphCanvas) (wx wy : ℚ)
    (n : NodeObj)
    (h : getNodeAtPos s.nodes s.options.selectionRadius wx wy = some n) :
    (performSelection s wx wy).1.nodes = s.nodes ∧
    (performSelection s wx wy).1.selectedLink = none ∧
    (performSelection s wx wy).1.selectedNode =
      (if selectedNodeId s = some n.id then none else some (n.tag, n.id)) := by
  refine ⟨(performSelection_frame s wx wy).1, ?_, ?_⟩
  · unfold performSelection
    simp only [h]
    have hl := clearSelections_linkCleared s { clearNode := false, clearLink := true } rfl
    split_ifs <;> simpa using hl
  · unfold performSelection
    simp only [h]
    have hn := clearSelections_keepNode s { clearNode := false, clearLink := true } rfl
    have hsel : selectedNodeId (clearSelections s { clearNode := false, clearLink := true }).1 =
        selectedNodeId s := by
      unfold selectedNodeId
      rw [hn]
    rw [hsel]
    split_ifs <;> rfl

unseal Rat.add Rat.mul Rat.sub Rat.inv in
/-- C4, witness: tapping the already-selected pinned node `A` deselects it,
clears the link selection, and leaves the node collection (with its pin)
untouched. -/
theorem c4_witness :
    (performSelection c4State 0 0).1.nodes = c4State.nodes ∧
    (performSelection c4State 0 0).1.selectedLink = none ∧
    (performSelection c4State 0 0).1.selectedNode =
      (if selectedNodeId c4State = some ({ nodeA with fx := some 0, fy := some 0 } : NodeObj).id
       then none
       else some (({ nodeA with fx := some 0, fy := some 0 } : NodeObj).tag,
                  ({ nodeA with fx := some 0, fy := some 0 } : NodeObj).id)) := by
  exact c4_performSelection_toggles_never_pins c4State 0 0
    { nodeA with fx := some 0, fy := some 0 } (by decide)

/-!  C5: `updateData` is a full replace with endpoint re-resolution.  -/

/-- Retagging (deep-copying) a node list preserves the ids in order. -/
theorem retagNodes_map_id (start : Nat) (ns : List NodeObj) :
    (retagNodes start ns).map NodeObj.id = ns.map NodeObj.id := by
  induction ns generalizing start with
  | nil => rfl
  | cons n rest ih => simp [retagNodes, ih]

/-- Every deep-copied edge keeps the endpoint fields of some input edge. -/
theorem retagEdges_endpoints_mem {start : Nat} {ls : List EdgeObj} {l : EdgeObj}
    (hl : l ∈ retagEdges start ls) :
    ∃ l0 ∈ ls, l.source = l0.source ∧ l.target = l0.target := by
  induction ls generalizing start with
  | nil => cases hl
  | cons a rest ih =>
    rcases List.mem_cons.mp hl with h | h
    · exact ⟨a, List.mem_cons_self _ _, by rw [h]; exact ⟨rfl, rfl⟩⟩
    · obtain ⟨l0, h0, he⟩ := ih h
      exact ⟨l0, List.mem_cons_of_mem _ h0, he⟩

/-- Resolving a present endpoint never throws: it is the `Map` lookup of the
endpoint's id. -/
theorem resolveEndpoint_some (ns : List NodeObj) (ep : Endpoint) :
    resolveEndpoint ns (some ep) = Except.ok (nodeMapGet ns (endpointId ep)) := by
  cases ep <;> rfl

/-- On links whose endpoint fields are all present, the implementation's
resolution pass computes exactly the specification's: resolve both endpoints
through their ids against the new node set and drop the links that do not
fully resolve. -/
theorem resolveLinks_ok (ns : List NodeObj) (ls : List EdgeObj)
    (h : ∀ l ∈ ls, l.source.isSome ∧ l.target.isSome) :
    resolveLinks ns ls = Except.ok (specResolveLinks ns ls) := by
  induction ls with
  | nil => rfl
  | cons l rest ih =>
    obtain ⟨hs, ht⟩ := h l (List.mem_cons_self _ _)
    obtain ⟨es, hes⟩ := Option.isSome_iff_exists.mp hs
    obtain ⟨et, het⟩ := Option.isSome_iff_exists.mp ht
    have ihr := ih (fun l2 hl2 => h l2 (List.mem_cons_of_mem _ hl2))
    unfold resolveLinks
    rw [hes, het, resolveEndpoint_some, resolveEndpoint_some, ihr]
    cases hga : nodeMapGet ns (endpointId es) <;>
    cases hgb : nodeMapGet ns (endpointId et) <;>
      simp [specResolveLinks, List.filterMap_cons, hes, het, hga, hgb]

/-- C5: `updateData(nodes, edges)` fully replaces both collections: the node
set becomes the (deep-copied) input node set, every edge endpoint — bare id
string or node-shaped object — is re-resolved against the new node set, edges
with an unresolvable endpoint are silently dropped, and both selections are
cleared. -/
theorem c5_updateData_full_replace (s : GraphCanvas)
    (newNodes : List NodeObj) (newLinks : List EdgeObj)
    (h : ∀ l ∈ newLinks, l.source.isSome ∧ l.target.isSome) :
    ∃ r : GraphCanvas × List CallbackEvent,
      updateData s newNodes newLinks = Except.ok r ∧
      r.1.nodes = retagNodes s.nextTag newNodes ∧
      r.1.nodes.map NodeObj.id = newNodes.map NodeObj.id ∧
      r.1.links = specResolveLinks (retagNodes s.nextTag newNodes)
        (retagEdges (s.nextTag + newNodes.length) newLinks) ∧
      r.1.selectedNode = none ∧
      r.1.selectedLink = none := by
  have hwf : ∀ l ∈ retagEdges (s.nextTag + newNodes.length) newLinks,
      l.source.isSome ∧ l.target.isSome := by
    intro l hl
    obtain ⟨l0, h0, hsrc, htgt⟩ := retagEdges_endpoints_mem hl
    rw [hsrc, htgt]
    exact h l0 h0
  have hres := resolveLinks_ok (retagNodes s.nextTag newNodes) _ hwf
  have heq : updateData s newNodes newLinks = Except.ok
      ({ (clearSelections s {}).1 with
          nodes := retagNodes s.nextTag newNodes
          links := specResolveLinks (retagNodes s.nextTag newNodes)
            (retagEdges (s.nextTag + newNodes.length) newLinks)
          alpha := 1
          nextTag := s.nextTag + newNodes.length + newLinks.length },
       (clearSelections s {}).2) := by
    unfold updateData
    simp only [hres]
    rfl
  refine ⟨_, heq, rfl, ?_, rfl, ?_, ?_⟩
  · exact retagNodes_map_id _ _
  · exact clearSelections_nodeCleared s {} rfl
  · exact clearSelections_linkCleared s {} rfl

unseal Rat.add Rat.mul Rat.sub Rat.inv in
/-- C5, witness: the specification's end-to-end example.
`updateData([{id:"X"}], [{id:"e1",source:"X",target:"Y"}])` succeeds with
node set `{X}`, an empty edge set (`Y` does not resolve, so the edge is
silently dropped) and a cleared selection. -/
theorem c5_witness :
    ([e1Edge].all (fun l => l.source.isSome && l.target.isSome)) = true ∧
    (updateData baseState [xNode] [e1Edge]).toOption.map
        (fun r => (r.1.nodes.map NodeObj.id, r.1.links, r.1.selectedNode, r.1.selectedLink)) =
      some (["X"], [], none, none) := by
  refine ⟨by decide, ?_⟩
  obtain ⟨r, hr, hnodes, hids, hlinks, hsn, hsl⟩ :=
    c5_updateData_full_replace baseState [xNode] [e1Edge] (by decide)
  rw [hr]
  have h1 : r.1.nodes.map NodeObj.id = ["X"] := by rw [hids]; decide
  have h2 : r.1.links = [] := by rw [hlinks]; decide
  simp [Except.toOption, h1, h2, hsn, hsl]

/-!  C3 and C8: the release handler.  -/

/-- The tap block changes at most the selection: every other field survives. -/
theorem tapSelect_frame (s1 : GraphCanvas) (e : PointerEventRec)
    (sessionInfo : Option PointerInfo) :
    (tapSelect s1 e sessionInfo).1.nodes = s1.nodes ∧
    (tapSelect s1 e sessionInfo).1.alphaTarget = s1.alphaTarget ∧
    (tapSelect s1 e sessionInfo).1.draggingNode = s1.draggingNode ∧
    (tapSelect s1 e sessionInfo).1.primaryPointerId = s1.primaryPointerId ∧
    (tapSelect s1 e sessionInfo).1.activePointers = s1.activePointers ∧
    (tapSelect s1 e sessionInfo).1.links = s1.links := by
  unfold tapSelect
  cases sessionInfo with
  | none => exact ⟨rfl, rfl, rfl, rfl, rfl, rfl⟩
  | some info =>
    dsimp only
    split_ifs with h1 h2
    · obtain ⟨f1, f2, f3, f4, f5, f6, f7, f8⟩ := performSelection_frame s1
        ((getPointerPos s1 e).worldX) ((getPointerPos s1 e).worldY)
      exact ⟨f1, f2, f3, f4, f5, f8⟩
    · exact ⟨rfl, rfl, rfl, rfl, rfl, rfl⟩
    · exact ⟨rfl, rfl, rfl, rfl, rfl, rfl⟩

/-- When the release is not a tap (as `isTapRelease` evaluates it on the
pre-release state), the tap block is the identity on any drag-end state that
agrees with the pre-release state on `wasDragging` and the options: it
performs no selection and does not call `preventDefault`. -/
theorem tapSelect_of_not_tap (s : GraphCanvas) (e : PointerEventRec) (s1 : GraphCanvas)
    (hw : s1.wasDragging = s.wasDragging) (ho : s1.options = s.options)
    (h : isTapRelease s e = false) :
    tapSelect s1 e (s.activePointers.lookup e.pointerId) = (s1, [], false) := by
  unfold isTapRelease at h
  unfold tapSelect
  cases hlook : s.activePointers.lookup e.pointerId with
  | none => rfl
  | some info =>
    rw [hlook] at h
    dsimp only
    split_ifs with h1 h2
    · exfalso
      have hs : s.wasDragging = false := by rw [← hw]; exact h1.1
      have ht : e.timeStamp - info.startTime < s.options.tapTimeout := by
        rw [← ho]; exact h2.1
      have hd : sqrtLt ((e.clientX - info.startX) * (e.clientX - info.startX) +
          (e.clientY - info.startY) * (e.clientY - info.startY))
          s.options.tapThreshold := by
        rw [← ho]; exact h2.2
      simp [hs, h1.2, ht, hd] at h
    · rfl
    · rfl

/-- C3, amended: a release that fails the tap classification (no session, a
dragged session, a non-primary pointer, elapsed time `≥ tapTimeout`, or
displacement `≥ tapThreshold`) performs no selection change **in the pointerup
handler**: the selection is untouched, no `onNodeClick`/`onLinkClick` fires
there, and `preventDefault` is not called — so the browser still delivers the
subsequent `click` event, which performs a selection whenever the session was
not a drag (`wasDragging = false`); a stationary slow press therefore still
selects via `_handleClick` (see the counterexample). -/
theorem c3_non_tap_release_no_selection_in_pointerup (s : GraphCanvas)
    (e : PointerEventRec) (h : isTapRelease s e = false) :
    (handlePointerUp s e).1.selectedNode = s.selectedNode ∧
    (handlePointerUp s e).1.selectedLink = s.selectedLink ∧
    selectionCallbacks (handlePointerUp s e).2.1 = [] ∧
    (handlePointerUp s e).2.2 = false := by
  unfold handlePointerUp
  cases hdn : s.draggingNode with
  | none =>
    simp only [hdn]
    rw [tapSelect_of_not_tap s e s rfl rfl h]
    exact ⟨rfl, rfl, rfl, rfl⟩
  | some pr =>
    obtain ⟨tag, nid⟩ := pr
    simp only [hdn]
    by_cases hp : s.primaryPointerId = some e.pointerId
    · rw [if_pos hp]
      by_cases hsel : selectedNodeId s = some nid
      · rw [if_pos hsel]
        rw [tapSelect_of_not_tap s e
          { s with alphaTarget := 0, draggingNode := none, primaryPointerId := none }
          rfl rfl h]
        exact ⟨rfl, rfl, rfl, rfl⟩
      · rw [if_neg hsel]
        rw [tapSelect_of_not_tap s e
          { s with nodes := setNodeFxFy s.nodes tag none none, alphaTarget := 0,
                   draggingNode := none, primaryPointerId := none }
          rfl rfl h]
        exact ⟨rfl, rfl, rfl, rfl⟩
    · rw [if_neg hp]
      rw [tapSelect_of_not_tap s e s rfl rfl h]
      exact ⟨rfl, rfl, rfl, rfl⟩

unseal Rat.add Rat.mul Rat.sub Rat.inv in
/-- C3, witness: the stationary release 300 ms after the press on node `A` is
not a tap, and the pointerup handler indeed leaves the selection unchanged,
fires no selection callback and does not prevent the default click. -/
theorem c3_witness :
    isTapRelease (handlePointerDown c3State c3Down).1 c3Up = false ∧
    (handlePointerUp (handlePointerDown c3State c3Down).1 c3Up).1.selectedNode =
      (handlePointerDown c3State c3Down).1.selectedNode ∧
    (handlePointerUp (handlePointerDown c3State c3Down).1 c3Up).1.selectedLink =
      (handlePointerDown c3State c3Down).1.selectedLink ∧
    selectionCallbacks (handlePointerUp (handlePointerDown c3State c3Down).1 c3Up).2.1 = [] ∧
    (handlePointerUp (handlePointerDown c3State c3Down).1 c3Up).2.2 = false := by
  refine ⟨by decide, ?_⟩
  exact c3_non_tap_release_no_selection_in_pointerup
    (handlePointerDown c3State c3Down).1 c3Up (by decide)

/-- C8: on a release while this pointer drives an active node drag, the
simulation is cooled (`alphaTarget` drops to `0`), the drag state is cleared
(`draggingNode` and `primaryPointerId` become `none`) in every case, and the
dragged node is unpinned (`fx`/`fy` set to `null`) exactly when it is not the
node selected at release time — a selected node keeps its pin. `pointercancel`
delegates to the same handler unconditionally, and `pointerleave` delegates to
it under exactly the hypotheses of this theorem. -/
theorem c8_release_unpins_unless_selected (s : GraphCanvas) (e : PointerEventRec)
    (tag : Nat) (nid : String)
    (hdrag : s.draggingNode = some (tag, nid))
    (hprim : s.primaryPointerId = some e.pointerId) :
    (handlePointerUp s e).1.alphaTarget = 0 ∧
    (handlePointerUp s e).1.draggingNode = none ∧
    (handlePointerUp s e).1.primaryPointerId = none ∧
    (handlePointerUp s e).1.nodes =
      (if selectedNodeId s = some nid then s.nodes
       else setNodeFxFy s.nodes tag none none) ∧
    handlePointerCancel s e = handlePointerUp s e ∧
    handlePointerLeave s e = handlePointerUp s e := by
  have hcancel : handlePointerCancel s e = handlePointerUp s e := rfl
  have hleave : handlePointerLeave s e = handlePointerUp s e := by
    unfold handlePointerLeave
    simp only [hdrag]
    rw [if_pos hprim]
  refine ⟨?_, ?_, ?_, ?_, hcancel, hleave⟩ <;>
  · unfold handlePointerUp
    simp only [hdrag]
    rw [if_pos hprim]
    by_cases hsel : selectedNodeId s = some nid
    · simp only [if_pos hsel]
      first
        | exact (tapSelect_frame _ _ _).2.1
        | exact (tapSelect_frame _ _ _).2.2.1
        | exact (tapSelect_frame _ _ _).2.2.2.1
        | exact (tapSelect_frame _ _ _).1
    · simp only [if_neg hsel]
      first
        | exact (tapSelect_frame _ _ _).2.1
        | exact (tapSelect_frame _ _ _).2.2.1
        | exact (tapSelect_frame _ _ _).2.2.2.1
        | exact (tapSelect_frame _ _ _).1

unseal Rat.add Rat.mul Rat.sub Rat.inv in
/-- C8, witness: releasing pointer 1 while it drags the unselected pinned node
`A` cools the simulation, clears the drag state, and unpins the node. -/
theorem c8_witness :
    (handlePointerUp c8State c3Up).1.alphaTarget = 0 ∧
    (handlePointerUp c8State c3Up).1.draggingNode = none ∧
    (handlePointerUp c8State c3Up).1.primaryPointerId = none ∧
    (handlePointerUp c8State c3Up).1.nodes =
      (if selectedNodeId c8State = some "A" then c8State.nodes
       else setNodeFxFy c8State.nodes 0 none none) ∧
    handlePointerCancel c8State c3Up = handlePointerUp c8State c3Up ∧
    handlePointerLeave c8State c3Up = handlePointerUp c8State c3Up := by
  exact c8_release_unpins_unless_selected c8State c3Up 0 "A" (by decide) (by decide)

end ForceGraph
